import Mathlib

/-!
Verification of the emergency-lifecycle and resource-management logic of an
ambulance-dispatch service. The Express route handlers for emergencies,
hospitals and payments are shallowly embedded as pure Lean functions over an
explicit database state; the document store is modelled as association lists
from numeric ids to records. Each handler returns the (possibly updated)
database together with an `Except` result mirroring the thrown HTTP errors.
-/

namespace AmbulanceSys

/-- The eight-value emergency status enum of the Emergency schema. -/
inductive EStatus where
  | pending
  | assigned
  | en_route
  | arrived_at_patient
  | transporting
  | arrived_at_hospital
  | completed
  | cancelled
deriving DecidableEq, Repr

/-- Ambulance status enum of the Ambulance schema. -/
inductive AmbStatus where
  | available
  | busy
  | maintenance
  | offline
deriving DecidableEq, Repr

/-- User roles. -/
inductive Role where
  | user
  | driver
  | admin
  | hospital_admin
deriving DecidableEq, Repr

/-- Payment status enum of the Payment schema. -/
inductive PayStatus where
  | pending
  | processing
  | completed
  | refunded
  | failed
  | cancelled
deriving DecidableEq, Repr

/-- Error taxonomy of the API, as surfaced by the thrown route errors:
404 not-found, 403 forbidden, 400 for malformed input, violated state
preconditions (conflict) and illegal status transitions. -/
inductive ApiError where
  | notFound (msg : String)
  | forbidden (msg : String)
  | badRequest (msg : String)
  | conflict (msg : String)
  | invalidTransition (msg : String)
deriving DecidableEq, Repr

/-- The authenticated caller attached to the request by the auth middleware. -/
structure User where
  id : Nat
  role : Role
  name : String
deriving DecidableEq, Repr

/-- A route computed by the maps provider (distance/duration/polyline). -/
structure Route where
  distanceText : String
  durationText : String
  polyline : String
deriving DecidableEq, Repr

/-- A timeline entry of an emergency (time value elided: no handler reads it
back). -/
structure TimelineEntry where
  status : String
  notes : String
deriving DecidableEq, Repr

/-- Feedback sub-document of an emergency. -/
structure Feedback where
  rating : Rat
  comment : Option String
deriving DecidableEq, Repr

/-- An Emergency document: the fields the embedded handlers touch. -/
structure Emergency where
  patient : Nat
  requestedBy : Nat
  status : EStatus
  ambulance : Option Nat
  hospital : Option Nat
  route : Option Route
  timeline : List TimelineEntry
  feedback : Option Feedback
deriving DecidableEq, Repr

/-- An Ambulance document. -/
structure Ambulance where
  registrationNumber : String
  status : AmbStatus
  driver : Option Nat
  activeEmergency : Option Nat
deriving DecidableEq, Repr

/-- Hospital emergency capacity sub-document. -/
structure Capacity where
  total : Int
  available : Int
deriving DecidableEq, Repr

/-- Hospital rating sub-document (running average and count). -/
structure Rating where
  average : Rat
  count : Nat
deriving DecidableEq, Repr

/-- A Hospital document. -/
structure Hospital where
  name : String
  administrators : List Nat
  emergencyCapacity : Capacity
  rating : Rating
deriving DecidableEq, Repr

/-- A Payment document with its optional refund sub-document. -/
structure Refund where
  amount : Rat
  reason : String
  status : String
deriving DecidableEq, Repr

/-- A Payment document. -/
structure Payment where
  amount : Rat
  status : PayStatus
  refund : Option Refund
deriving DecidableEq, Repr

/-- Lookup by id in a store modelled as an association list
(`Model.findById`). -/
def lookupId {α : Type} : List (Nat × α) → Nat → Option α
  | [], _ => none
  | (k, v) :: rest, i => if k = i then some v else lookupId rest i

/-- Overwrite (or insert) the record with key `i` (`document.save()`). -/
def setId {α : Type} : List (Nat × α) → Nat → α → List (Nat × α)
  | [], i, v => [(i, v)]
  | (k, w) :: rest, i, v => if k = i then (i, v) :: rest else (k, w) :: setId rest i v

/-- The database state the handlers read and write. -/
structure DB where
  emergencies : List (Nat × Emergency)
  ambulances : List (Nat × Ambulance)
  hospitals : List (Nat × Hospital)
deriving DecidableEq, Repr

/-- Status of the emergency with id `eid`, if it exists. -/
def emergencyStatusIn (db : DB) (eid : Nat) : Option EStatus :=
  (lookupId db.emergencies eid).map (·.status)

/-- Available capacity of the hospital with id `hid`, if it exists. -/
def hospAvail (db : DB) (hid : Nat) : Option Int :=
  (lookupId db.hospitals hid).map (·.emergencyCapacity.available)

/-- The statusMap of `emergencySchema.methods.updateStatus`, mapping a status
to its timeline label. -/
def timelineStatus : EStatus → String
  | .pending => "emergency_requested"
  | .assigned => "ambulance_assigned"
  | .en_route => "ambulance_en_route"
  | .arrived_at_patient => "ambulance_arrived_at_patient"
  | .transporting => "patient_picked_up"
  | .arrived_at_hospital => "arrived_at_hospital"
  | .completed => "emergency_completed"
  | .cancelled => "emergency_cancelled"

/-- The statuses whose updates the route reserves to admin or the assigned
driver. -/
def driverStatuses : List EStatus :=
  [.en_route, .arrived_at_patient, .transporting, .arrived_at_hospital, .completed]

/-- Whether the caller is the driver of the ambulance assigned to the
emergency, as computed by the status route (fresh ambulance lookup). -/
def isDriverOf (db : DB) (user : User) (e : Emergency) : Bool :=
  match e.ambulance with
  | some aid =>
    match lookupId db.ambulances aid with
    | some amb => amb.driver = some user.id
    | none => false
  | none => false

/-- The authorization predicate the status route applies to a requested status
change: cancel is reserved to admin/patient/requester, the driver statuses to
admin/driver, and any other target status is not authorization-checked. -/
def statusAuthOk (db : DB) (user : User) (e : Emergency) (s : EStatus) : Bool :=
  if s = .cancelled then
    user.role = .admin || e.patient = user.id || e.requestedBy = user.id
  else if driverStatuses.contains s then
    user.role = .admin || isDriverOf db user e
  else
    true

/-- The free-the-ambulance block of the status route: if the emergency has an
ambulance and it exists, set it `available` with no active emergency. -/
def releaseAmbulance (db : DB) (aidOpt : Option Nat) : DB :=
  match aidOpt with
  | some aid =>
    match lookupId db.ambulances aid with
    | some amb =>
      let amb1 := { amb with status := AmbStatus.available, activeEmergency := none }
      { db with ambulances := setId db.ambulances aid amb1 }
    | none => db
  | none => db

/-- The restore-hospital-capacity block of the status route: if the emergency
has a hospital and it exists, increment its available capacity, capped at the
total. -/
def restoreHospitalCap (db : DB) (hidOpt : Option Nat) : DB :=
  match hidOpt with
  | some hid =>
    match lookupId db.hospitals hid with
    | some h =>
      let cap1 : Capacity :=
        ⟨h.emergencyCapacity.total,
         min h.emergencyCapacity.total (h.emergencyCapacity.available + 1)⟩
      { db with hospitals := setId db.hospitals hid { h with emergencyCapacity := cap1 } }
    | none => db
  | none => db

/-- The emergency write of `emergency.updateStatus`: status overwrite plus
appended timeline entry. -/
def commitBase (db : DB) (eid : Nat) (e : Emergency) (s : EStatus)
    (notes : String) : DB :=
  let e1 : Emergency :=
    { e with status := s, timeline := e.timeline ++ [⟨timelineStatus s, notes⟩] }
  { db with emergencies := setId db.emergencies eid e1 }

/-- The success path of the status route: `emergency.updateStatus` (status
write plus timeline append) followed by the completed/cancelled side effects
on the ambulance and hospital. -/
def commitApply (db : DB) (eid : Nat) (e : Emergency) (s : EStatus)
    (notes : String) : DB :=
  if s = .completed ∨ s = .cancelled then
    if s = .completed then
      restoreHospitalCap (releaseAmbulance (commitBase db eid e s notes) e.ambulance) e.hospital
    else
      releaseAmbulance (commitBase db eid e s notes) e.ambulance
  else commitBase db eid e s notes

/-- The status-specific validation and commit tail of the status route: the
five per-target precondition checks, then `emergency.updateStatus` (status
write plus timeline append) and the completed/cancelled side effects on the
ambulance and hospital. -/
def updateStatusCommit (db : DB) (eid : Nat) (e : Emergency) (s : EStatus)
    (notes : String) : DB × Except ApiError Unit :=
  if s = .en_route ∧ e.status ≠ .assigned then
    (db, .error (.invalidTransition "Emergency must be assigned before going en route"))
  else if s = .arrived_at_patient ∧ e.status ≠ .assigned ∧ e.status ≠ .en_route then
    (db, .error (.invalidTransition "Ambulance must be en route before arriving at patient"))
  else if s = .transporting ∧ e.status ≠ .arrived_at_patient then
    (db, .error (.invalidTransition "Ambulance must arrive at patient before transporting"))
  else if s = .arrived_at_hospital ∧ e.status ≠ .transporting then
    (db, .error (.invalidTransition "Patient must be in transport before arriving at hospital"))
  else if s = .completed ∧ e.status ≠ .arrived_at_hospital then
    (db, .error (.invalidTransition "Emergency must arrive at hospital before completion"))
  else
    (commitApply db eid e s notes, .ok ())

/-- The PUT /api/emergencies/:id/status handler: load the emergency, apply the
per-target authorization branch (with the cancel-of-completed guard inside the
cancel branch), then validate and commit. -/
def updateStatusHandler (db : DB) (user : User) (eid : Nat) (s : EStatus)
    (notes : String) : DB × Except ApiError Unit :=
  match lookupId db.emergencies eid with
  | none => (db, .error (.notFound "Emergency not found"))
  | some e =>
    if s = .cancelled then
      if ¬(user.role = .admin ∨ e.patient = user.id ∨ e.requestedBy = user.id) then
        (db, .error (.forbidden "Not authorized to cancel this emergency"))
      else if e.status = .completed then
        (db, .error (.invalidTransition "Cannot cancel a completed emergency"))
      else
        updateStatusCommit db eid e s notes
    else if driverStatuses.contains s then
      if ¬(user.role = .admin ∨ isDriverOf db user e = true) then
        (db, .error (.forbidden "Not authorized to update this emergency status"))
      else
        updateStatusCommit db eid e s notes
    else
      updateStatusCommit db eid e s notes

/-- The commit tail of the assign route, reached after every precondition
check passed: write the emergency (ambulance ref, status `assigned`, hospital
ref if given, best-effort route, timeline entry), then mark the ambulance
busy, then decrement the capacity of the given hospital (floored at 0). -/
def assignCommit (db : DB) (user : User) (eid : Nat) (e : Emergency) (aid : Nat)
    (amb : Ambulance) (hospitalId : Option Nat) (hosp : Option Hospital)
    (routeResult : Except String Route) : DB × Except ApiError Unit :=
  let route : Option Route := match routeResult with
    | .ok r => some r
    | .error _ => none
  let e1 : Emergency :=
    { e with
        ambulance := some aid
        status := .assigned
        hospital := match hospitalId with
          | some hid => some hid
          | none => e.hospital
        route := match route with
          | some r => some r
          | none => e.route
        timeline := e.timeline ++
          [⟨"ambulance_assigned",
            "Ambulance " ++ amb.registrationNumber ++ " assigned by " ++ user.name⟩] }
  let db1 : DB := { db with emergencies := setId db.emergencies eid e1 }
  let amb1 : Ambulance := { amb with status := .busy, activeEmergency := some eid }
  let db2 : DB := { db1 with ambulances := setId db1.ambulances aid amb1 }
  let db3 : DB :=
    match hospitalId, hosp with
    | some hid, some h =>
      let cap1 : Capacity :=
        ⟨h.emergencyCapacity.total, max 0 (h.emergencyCapacity.available - 1)⟩
      { db2 with hospitals := setId db2.hospitals hid { h with emergencyCapacity := cap1 } }
    | _, _ => db2
  (db3, .ok ())

/-- The PUT /api/emergencies/:id/assign handler: require an ambulance id, load
the emergency, authorize (admin, or hospital_admin administering the target
hospital), load the ambulance and require it available with a driver, load the
optional hospital and require positive available capacity, then commit. The
route computation is best-effort: its failure does not block assignment. -/
def assignHandler (db : DB) (user : User) (eid : Nat) (ambulanceId : Option Nat)
    (hospitalId : Option Nat) (routeResult : Except String Route) :
    DB × Except ApiError Unit :=
  match ambulanceId with
  | none => (db, .error (.badRequest "Ambulance ID is required"))
  | some aid =>
    match lookupId db.emergencies eid with
    | none => (db, .error (.notFound "Emergency not found"))
    | some e =>
      let isHospitalAdmin : Bool :=
        user.role = .hospital_admin &&
          (match hospitalId with
           | some hid =>
             match lookupId db.hospitals hid with
             | some h => h.administrators.contains user.id
             | none => false
           | none => false)
      if ¬(user.role = .admin ∨ isHospitalAdmin = true) then
        (db, .error (.forbidden "Not authorized to assign ambulance"))
      else
        match lookupId db.ambulances aid with
        | none => (db, .error (.notFound "Ambulance not found"))
        | some amb =>
          if amb.status ≠ .available then
            (db, .error (.conflict "Ambulance is not available"))
          else if amb.driver = none then
            (db, .error (.conflict "Ambulance has no assigned driver"))
          else
            match hospitalId with
            | some hid =>
              (match lookupId db.hospitals hid with
               | none => (db, .error (.notFound "Hospital not found"))
               | some h =>
                 if h.emergencyCapacity.available ≤ 0 then
                   (db, .error (.conflict "Hospital has no available emergency capacity"))
                 else
                   assignCommit db user eid e aid amb hospitalId (some h) routeResult)
            | none => assignCommit db user eid e aid amb none none routeResult

/-- The POST /api/emergencies/:id/feedback handler: validate the rating range,
load the emergency, require the caller to be patient or requester, require
status `completed`, store the feedback, then fold the rating into the running
average of the associated hospital, if any. -/
def feedbackHandler (db : DB) (user : User) (eid : Nat) (rating : Rat)
    (comment : Option String) : DB × Except ApiError Unit :=
  if rating < 1 ∨ rating > 5 then
    (db, .error (.badRequest "Rating is required and must be between 1 and 5"))
  else
    match lookupId db.emergencies eid with
    | none => (db, .error (.notFound "Emergency not found"))
    | some e =>
      if e.patient ≠ user.id ∧ e.requestedBy ≠ user.id then
        (db, .error (.forbidden "Not authorized to add feedback to this emergency"))
      else if e.status ≠ .completed then
        (db, .error (.conflict "Can only add feedback to completed emergencies"))
      else
        let e1 : Emergency := { e with feedback := some ⟨rating, comment⟩ }
        let db1 : DB := { db with emergencies := setId db.emergencies eid e1 }
        let db2 : DB :=
          match e.hospital with
          | some hid =>
            match lookupId db1.hospitals hid with
            | some h =>
              let newAvg : Rat :=
                (h.rating.average * h.rating.count + rating) / (h.rating.count + 1)
              let h1 : Hospital := { h with rating := ⟨newAvg, h.rating.count + 1⟩ }
              { db1 with hospitals := setId db1.hospitals hid h1 }
            | none => db1
          | none => db1
        (db2, .ok ())

/-- The POST /api/payments/:id/refund handler (admin-gated by middleware):
require a completed payment and a refund amount in (0, amount]; record the
refund and set the status to `refunded` exactly when the refund is full. -/
def refundHandler (payments : List (Nat × Payment)) (user : User) (pid : Nat)
    (amount : Rat) (reason : Option String) :
    List (Nat × Payment) × Except ApiError Unit :=
  if user.role ≠ .admin then
    (payments, .error (.forbidden "Not authorized as an admin"))
  else
    match lookupId payments pid with
    | none => (payments, .error (.notFound "Payment not found"))
    | some p =>
      if p.status ≠ .completed then
        (payments, .error (.conflict "Only completed payments can be refunded"))
      else if amount ≤ 0 ∨ amount > p.amount then
        (payments, .error (.badRequest "Invalid refund amount"))
      else
        let p1 : Payment :=
          { p with
              refund := some ⟨amount, reason.getD "Customer request", "completed"⟩
              status := if amount = p.amount then .refunded else .completed }
        (setId payments pid p1, .ok ())

/-- An internally stored hospital as returned by `Hospital.findNearest`. -/
structure DbHospital where
  name : String
deriving DecidableEq, Repr

/-- A raw result of the external places provider. -/
structure GoogleHospital where
  name : String
  vicinity : String
deriving DecidableEq, Repr

/-- An entry of the nearby-hospitals response, tagged by origin: an internal
store record or a mapped external-provider record. -/
inductive NearbyEntry where
  | internal (h : DbHospital)
  | external (name : String) (street : String)
deriving DecidableEq, Repr

/-- The JSON envelope of the nearby-hospitals response. -/
structure NearbyResponse where
  source : String
  count : Nat
  data : List NearbyEntry
  error : Option String
deriving DecidableEq, Repr

/-- The GET /api/hospitals/nearby handler, over the already-fetched internal
result list and the outcome of the external provider call: return internal
results alone when they reach the limit; otherwise append external results
whose lowercased name does not occur among the internal names, truncated to
the limit; on provider failure return the internal results with the error
message attached. -/
def nearbyHandler (dbHospitals : List DbHospital)
    (googleResult : Except String (List GoogleHospital)) (lim : Nat) :
    NearbyResponse :=
  if dbHospitals.length ≥ lim then
    ⟨"database", dbHospitals.length, dbHospitals.map .internal, none⟩
  else
    match googleResult with
    | .ok gs =>
      let dbNames := dbHospitals.map (fun h => h.name.toLower)
      let filtered := (gs.filter (fun g => ¬dbNames.contains g.name.toLower)).map
        (fun g => NearbyEntry.external g.name g.vicinity)
      let combined := dbHospitals.map NearbyEntry.internal ++
        filtered.take (lim - dbHospitals.length)
      ⟨"combined", combined.length, combined, none⟩
    | .error msg =>
      ⟨"database", dbHospitals.length, dbHospitals.map .internal, some msg⟩

/-- Transition table of the specification (section 4.1), written from the
words of the spec: `specAllowedNext cur next` holds exactly when the table has
an edge from `cur` to `next`. -/
def specAllowedNext (cur next : EStatus) : Bool :=
  match next with
  | .pending => false
  | .assigned => cur = .pending
  | .en_route => cur = .assigned
  | .arrived_at_patient => cur = .assigned || cur = .en_route
  | .transporting => cur = .arrived_at_patient
  | .arrived_at_hospital => cur = .transporting
  | .completed => cur = .arrived_at_hospital
  | .cancelled => cur ≠ .completed

/-! Store lemmas. -/

theorem lookupId_setId_self {α : Type} (l : List (Nat × α)) (k : Nat) (v : α) :
    lookupId (setId l k v) k = some v := by
  induction l with
  | nil => simp [setId, lookupId]
  | cons p rest ih =>
    obtain ⟨k', w⟩ := p
    by_cases h : k' = k
    · simp [setId, h, lookupId]
    · simp [setId, h, lookupId, ih]

theorem lookupId_setId_ne {α : Type} (l : List (Nat × α)) (k i : Nat) (v : α)
    (h : k ≠ i) : lookupId (setId l k v) i = lookupId l i := by
  induction l with
  | nil => simp [setId, lookupId, h]
  | cons p rest ih =>
    obtain ⟨k', w⟩ := p
    by_cases hk : k' = k
    · subst hk
      simp [setId, lookupId, h]
    · simp [setId, hk, lookupId, ih]

theorem setId_forall {α : Type} {P : α → Prop} {l : List (Nat × α)} {k : Nat} {v : α}
    (hl : ∀ p ∈ l, P p.2) (hv : P v) : ∀ p ∈ setId l k v, P p.2 := by
  induction l with
  | nil =>
    intro p hp
    simp [setId] at hp
    simp [hp, hv]
  | cons q rest ih =>
    obtain ⟨k', w⟩ := q
    intro p hp
    by_cases h : k' = k
    · simp [setId, h] at hp
      rcases hp with hp | hp
      · simp [hp, hv]
      · exact hl p (List.mem_cons_of_mem _ hp)
    · simp only [setId, if_neg h, List.mem_cons] at hp
      rcases hp with hp | hp
      · exact hl p (by simp [hp])
      · exact ih (fun q hq => hl q (List.mem_cons_of_mem _ hq)) p hp

/-! Frame lemmas: each side-effect block touches only its own store. -/

@[simp] theorem releaseAmbulance_emergencies (db : DB) (a : Option Nat) :
    (releaseAmbulance db a).emergencies = db.emergencies := by
  unfold releaseAmbulance
  split
  · split <;> rfl
  · rfl

@[simp] theorem releaseAmbulance_hospitals (db : DB) (a : Option Nat) :
    (releaseAmbulance db a).hospitals = db.hospitals := by
  unfold releaseAmbulance
  split
  · split <;> rfl
  · rfl

@[simp] theorem restoreHospitalCap_emergencies (db : DB) (a : Option Nat) :
    (restoreHospitalCap db a).emergencies = db.emergencies := by
  unfold restoreHospitalCap
  split
  · split <;> rfl
  · rfl

@[simp] theorem restoreHospitalCap_ambulances (db : DB) (a : Option Nat) :
    (restoreHospitalCap db a).ambulances = db.ambulances := by
  unfold restoreHospitalCap
  split
  · split <;> rfl
  · rfl

/-! Lemmas about the status-route commit tail. -/

/-- A successful commit writes the requested status on the emergency. -/
theorem updateStatusCommit_ok_status (db : DB) (eid : Nat) (e : Emergency)
    (s : EStatus) (notes : String) (db' : DB)
    (h : updateStatusCommit db eid e s notes = (db', .ok ())) :
    emergencyStatusIn db' eid = some s := by
  unfold updateStatusCommit at h
  split at h
  · simp at h
  · split at h
    · simp at h
    · split at h
      · simp at h
      · split at h
        · simp at h
        · split at h
          · simp at h
          · simp only [Prod.mk.injEq] at h
            obtain ⟨hdb, -⟩ := h
            subst hdb
            simp only [emergencyStatusIn, commitApply]
            split
            · split <;> simp [commitBase, lookupId_setId_self]
            · simp [commitBase, lookupId_setId_self]

/-- When the target is one of the five linear-progression statuses and the
transition table has no edge from the current status, the commit tail fails
with an InvalidTransition error and returns the database unchanged. -/
theorem updateStatusCommit_invalid (db : DB) (eid : Nat) (e : Emergency)
    (s : EStatus) (notes : String)
    (hp : s ≠ .pending) (ha : s ≠ .assigned) (hc : s ≠ .cancelled)
    (hedge : specAllowedNext e.status s = false) :
    ∃ msg, updateStatusCommit db eid e s notes = (db, .error (.invalidTransition msg)) := by
  cases s with
  | pending => exact absurd rfl hp
  | assigned => exact absurd rfl ha
  | cancelled => exact absurd rfl hc
  | en_route =>
    simp only [specAllowedNext, decide_eq_false_iff_not] at hedge
    exact ⟨"Emergency must be assigned before going en route",
      by simp [updateStatusCommit, hedge]⟩
  | arrived_at_patient =>
    simp only [specAllowedNext, Bool.or_eq_false_iff, decide_eq_false_iff_not] at hedge
    exact ⟨"Ambulance must be en route before arriving at patient",
      by simp [updateStatusCommit, hedge.1, hedge.2]⟩
  | transporting =>
    simp only [specAllowedNext, decide_eq_false_iff_not] at hedge
    exact ⟨"Ambulance must arrive at patient before transporting",
      by simp [updateStatusCommit, hedge]⟩
  | arrived_at_hospital =>
    simp only [specAllowedNext, decide_eq_false_iff_not] at hedge
    exact ⟨"Patient must be in transport before arriving at hospital",
      by simp [updateStatusCommit, hedge]⟩
  | completed =>
    simp only [specAllowedNext, decide_eq_false_iff_not] at hedge
    exact ⟨"Emergency must arrive at hospital before completion",
      by simp [updateStatusCommit, hedge]⟩

/-- Conversely, a successful commit of a linear-progression status implies the
transition table has the edge. -/
theorem updateStatusCommit_ok_edge (db : DB) (eid : Nat) (e : Emergency)
    (s : EStatus) (notes : String) (db' : DB)
    (hp : s ≠ .pending) (ha : s ≠ .assigned) (hc : s ≠ .cancelled)
    (h : updateStatusCommit db eid e s notes = (db', .ok ())) :
    specAllowedNext e.status s = true := by
  by_cases hedge : specAllowedNext e.status s = true
  · exact hedge
  · obtain ⟨msg, hmsg⟩ := updateStatusCommit_invalid db eid e s notes hp ha hc
      (Bool.not_eq_true _ ▸ hedge)
    rw [hmsg] at h
    simp at h

/-! Claim C1: behavior of the status route against the spec transition table. -/

/-- Store for a concrete run of the status route: one completed emergency and
an unrelated authenticated caller. -/
def c1db : DB := ⟨[(1, ⟨2, 3, .completed, none, none, none, [], none⟩)], [], []⟩

/-- The caller in the concrete run: an ordinary user. -/
def c1user : User := ⟨9, .user, "u"⟩

/-- C1 fails as stated: requesting next status `assigned` on a `completed`
emergency is not an edge of the section 4.1 table, yet the status route
accepts it and overwrites the status, because targets `pending` and `assigned`
are never validated. -/
theorem updateStatus_assigned_escapes_table :
    emergencyStatusIn c1db 1 = some .completed ∧
    specAllowedNext .completed .assigned = false ∧
    (updateStatusHandler c1db c1user 1 .assigned "").2 = .ok () ∧
    emergencyStatusIn (updateStatusHandler c1db c1user 1 .assigned "").1 1 = some .assigned := by
  exact ⟨rfl, rfl, rfl, rfl⟩

/-- C1 (amended): for every requested next status other than `pending` and
`assigned`, the status route moves the status only along edges of the
section 4.1 table: a successful update implies the edge exists and writes the
requested status, and an authorized request for a missing edge fails with an
InvalidTransition error, leaving the database unchanged. (Requests targeting
`pending` or `assigned` bypass the table entirely.) -/
theorem updateStatus_follows_table (db : DB) (user : User) (eid : Nat)
    (s : EStatus) (notes : String) (e : Emergency)
    (he : lookupId db.emergencies eid = some e)
    (hp : s ≠ .pending) (ha : s ≠ .assigned) :
    (∀ db', updateStatusHandler db user eid s notes = (db', .ok ()) →
      specAllowedNext e.status s = true ∧ emergencyStatusIn db' eid = some s) ∧
    (statusAuthOk db user e s = true → specAllowedNext e.status s = false →
      ∃ msg, updateStatusHandler db user eid s notes =
        (db, .error (.invalidTransition msg))) := by
  unfold updateStatusHandler
  rw [he]
  dsimp only
  by_cases hc : s = .cancelled
  · subst hc
    rw [if_pos rfl]
    constructor
    · intro db' hok
      split at hok
      · simp at hok
      · split at hok
        · simp at hok
        · refine ⟨?_, updateStatusCommit_ok_status _ _ _ _ _ _ hok⟩
          simp only [specAllowedNext, decide_eq_true_eq]
          simp_all
    · intro hauth hedge
      simp only [statusAuthOk] at hauth
      simp at hauth
      simp only [specAllowedNext, decide_eq_false_iff_not, not_not] at hedge
      rw [if_neg (by tauto), if_pos hedge]
      exact ⟨"Cannot cancel a completed emergency", rfl⟩
  · have hd : driverStatuses.contains s = true := by
      cases s <;> simp_all [driverStatuses]
    rw [if_neg hc, if_pos hd]
    constructor
    · intro db' hok
      split at hok
      · simp at hok
      · exact ⟨updateStatusCommit_ok_edge _ _ _ _ _ _ hp ha hc hok,
          updateStatusCommit_ok_status _ _ _ _ _ _ hok⟩
    · intro hauth hedge
      simp only [statusAuthOk, if_neg hc, if_pos hd, Bool.or_eq_true,
        decide_eq_true_eq] at hauth
      rw [if_neg (by tauto)]
      exact updateStatusCommit_invalid _ _ _ _ _ hp ha hc hedge

/-- Witness for the amended C1: a driver requesting `transporting` on a
pending emergency is refused with an InvalidTransition error and the store
keeps the pending status. -/
theorem updateStatus_follows_table_witness :
    ∃ msg, updateStatusHandler ⟨[(1, ⟨2, 3, .pending, none, none, none, [], none⟩)], [], []⟩
        ⟨9, .admin, "a"⟩ 1 .transporting "" =
      (⟨[(1, ⟨2, 3, .pending, none, none, none, [], none⟩)], [], []⟩,
       .error (.invalidTransition msg)) :=
  (updateStatus_follows_table ⟨[(1, ⟨2, 3, .pending, none, none, none, [], none⟩)], [], []⟩
    ⟨9, .admin, "a"⟩ 1 .transporting "" ⟨2, 3, .pending, none, none, none, [], none⟩
    rfl (by decide) (by decide)).2 (by decide) (by decide)

/-! Claim C2: the assign route and the `pending` precondition. -/

/-- A successful assign commit reports ok and writes status `assigned`. -/
theorem assignCommit_status (db : DB) (user : User) (eid : Nat) (e : Emergency)
    (aid : Nat) (amb : Ambulance) (hidOpt : Option Nat) (hosp : Option Hospital)
    (route : Except String Route) :
    (assignCommit db user eid e aid amb hidOpt hosp route).2 = .ok () ∧
    emergencyStatusIn (assignCommit db user eid e aid amb hidOpt hosp route).1 eid =
      some .assigned := by
  unfold assignCommit
  constructor
  · split <;> rfl
  · simp only [emergencyStatusIn]
    split <;> simp [lookupId_setId_self]

/-- Store for a concrete assign run: a completed emergency and an available
ambulance with a driver. -/
def c2db : DB :=
  ⟨[(1, ⟨2, 3, .completed, none, none, none, [], none⟩)],
   [(4, ⟨"MH-01", .available, some 7, none⟩)], []⟩

/-- The admin caller of the concrete assign run. -/
def c2adm : User := ⟨9, .admin, "boss"⟩

/-- C2 fails as stated: the assign route never reads the emergency status, so
assigning an ambulance to a `completed` emergency succeeds (and rewrites its
status to `assigned`) instead of failing. -/
theorem assign_ignores_pending_precondition :
    emergencyStatusIn c2db 1 = some .completed ∧
    (assignHandler c2db c2adm 1 (some 4) none (.error "maps down")).2 = .ok () ∧
    emergencyStatusIn (assignHandler c2db c2adm 1 (some 4) none (.error "maps down")).1 1 =
      some .assigned := by
  exact ⟨rfl, rfl, rfl⟩

/-- C2 (amended): the assign route checks no precondition on the emergency
status. Whenever the emergency and ambulance exist, the caller is an admin,
the ambulance is available with a driver, and the optional hospital exists
with positive available capacity, the assignment succeeds and sets the status
to `assigned` — regardless of the emergency status beforehand. -/
theorem assign_succeeds_for_any_status (db : DB) (user : User) (eid aid : Nat)
    (hidOpt : Option Nat) (route : Except String Route) (e : Emergency) (amb : Ambulance)
    (he : lookupId db.emergencies eid = some e)
    (hrole : user.role = .admin)
    (hamb : lookupId db.ambulances aid = some amb)
    (hav : amb.status = .available)
    (hdrv : amb.driver ≠ none)
    (hhosp : ∀ hid, hidOpt = some hid →
      ∃ h, lookupId db.hospitals hid = some h ∧ 0 < h.emergencyCapacity.available) :
    (assignHandler db user eid (some aid) hidOpt route).2 = .ok () ∧
    emergencyStatusIn (assignHandler db user eid (some aid) hidOpt route).1 eid =
      some .assigned := by
  unfold assignHandler
  rw [he]
  dsimp only
  rw [if_neg (by simp [hrole])]
  rw [hamb]
  dsimp only
  rw [if_neg (by simp [hav]), if_neg hdrv]
  cases hidOpt with
  | none => exact assignCommit_status db user eid e aid amb none none route
  | some hid =>
    obtain ⟨h, hh, hcap⟩ := hhosp hid rfl
    dsimp only
    rw [hh]
    dsimp only
    rw [if_neg (by omega)]
    exact assignCommit_status db user eid e aid amb (some hid) (some h) route

/-- Witness for the amended C2: an admin assigns an available ambulance to an
emergency whose status is already `completed`, and the call still succeeds. -/
theorem assign_succeeds_for_any_status_witness :
    (assignHandler c2db c2adm 1 (some 4) none (.error "maps down")).2 = .ok () ∧
    emergencyStatusIn (assignHandler c2db c2adm 1 (some 4) none (.error "maps down")).1 1 =
      some .assigned :=
  assign_succeeds_for_any_status c2db c2adm 1 4 none (.error "maps down")
    ⟨2, 3, .completed, none, none, none, [], none⟩ ⟨"MH-01", .available, some 7, none⟩
    rfl rfl rfl rfl (by decide) (by intro hid hh; cases hh)

/-! Claim C3: assign fails with a conflict, before any write, when the
ambulance is not available or lacks a driver. -/

/-- C3: when the emergency exists, the caller is an admin, and the target
ambulance exists but is not `available` (or has no driver), the assign route
fails with a Conflict error and the returned database is exactly the input
database: emergency, ambulance and hospital (including its capacity) are
untouched. -/
theorem assign_conflict_keeps_state (db : DB) (user : User) (eid aid : Nat)
    (hidOpt : Option Nat) (route : Except String Route) (e : Emergency) (amb : Ambulance)
    (he : lookupId db.emergencies eid = some e)
    (hrole : user.role = .admin)
    (hamb : lookupId db.ambulances aid = some amb)
    (hbad : amb.status ≠ .available ∨ amb.driver = none) :
    ∃ msg, assignHandler db user eid (some aid) hidOpt route =
      (db, .error (.conflict msg)) := by
  unfold assignHandler
  rw [he]
  dsimp only
  rw [if_neg (by simp [hrole])]
  rw [hamb]
  dsimp only
  by_cases hav : amb.status = .available
  · have hdrv : amb.driver = none := by tauto
    refine ⟨"Ambulance has no assigned driver", ?_⟩
    rw [if_neg (by simp [hav]), if_pos hdrv]
  · refine ⟨"Ambulance is not available", ?_⟩
    rw [if_pos hav]

/-- Witness for C3: assigning a busy ambulance is refused with a Conflict and
the store is unchanged. -/
theorem assign_conflict_keeps_state_witness :
    ∃ msg, assignHandler
        ⟨[(1, ⟨2, 3, .pending, none, none, none, [], none⟩)],
         [(4, ⟨"MH-02", .busy, some 7, some 9⟩)], []⟩
        ⟨9, .admin, "boss"⟩ 1 (some 4) none (.error "maps down") =
      (⟨[(1, ⟨2, 3, .pending, none, none, none, [], none⟩)],
        [(4, ⟨"MH-02", .busy, some 7, some 9⟩)], []⟩,
       .error (.conflict msg)) :=
  assign_conflict_keeps_state
    ⟨[(1, ⟨2, 3, .pending, none, none, none, [], none⟩)],
     [(4, ⟨"MH-02", .busy, some 7, some 9⟩)], []⟩
    ⟨9, .admin, "boss"⟩ 1 4 none (.error "maps down")
    ⟨2, 3, .pending, none, none, none, [], none⟩ ⟨"MH-02", .busy, some 7, some 9⟩
    rfl rfl rfl (Or.inl (by decide))

/-! Claim C4: completion and cancellation release the ambulance; completion
restores hospital capacity. -/

@[simp] theorem commitBase_ambulances (db : DB) (eid : Nat) (e : Emergency)
    (s : EStatus) (notes : String) :
    (commitBase db eid e s notes).ambulances = db.ambulances := rfl

@[simp] theorem commitBase_hospitals (db : DB) (eid : Nat) (e : Emergency)
    (s : EStatus) (notes : String) :
    (commitBase db eid e s notes).hospitals = db.hospitals := rfl

/-- Looking the released ambulance back up yields it available and free. -/
theorem releaseAmbulance_lookup (db : DB) (aid : Nat) (amb : Ambulance)
    (hamb : lookupId db.ambulances aid = some amb) :
    lookupId (releaseAmbulance db (some aid)).ambulances aid =
      some { amb with status := .available, activeEmergency := none } := by
  unfold releaseAmbulance
  dsimp only
  rw [hamb]
  dsimp only
  exact lookupId_setId_self _ _ _

/-- Looking the restored hospital back up yields the capped increment. -/
theorem restoreHospitalCap_lookup (db : DB) (hid : Nat) (h : Hospital)
    (hh : lookupId db.hospitals hid = some h) :
    lookupId (restoreHospitalCap db (some hid)).hospitals hid =
      some { h with emergencyCapacity :=
        ⟨h.emergencyCapacity.total,
         min h.emergencyCapacity.total (h.emergencyCapacity.available + 1)⟩ } := by
  unfold restoreHospitalCap
  dsimp only
  rw [hh]
  dsimp only
  exact lookupId_setId_self _ _ _

/-- A successful status-route call factors through the commit tail. -/
theorem updateStatusHandler_ok_commit (db : DB) (user : User) (eid : Nat)
    (s : EStatus) (notes : String) (db' : DB) (e : Emergency)
    (he : lookupId db.emergencies eid = some e)
    (hok : updateStatusHandler db user eid s notes = (db', .ok ())) :
    updateStatusCommit db eid e s notes = (db', .ok ()) := by
  unfold updateStatusHandler at hok
  rw [he] at hok
  dsimp only at hok
  split at hok
  · split at hok
    · simp at hok
    · split at hok
      · simp at hok
      · exact hok
  · split at hok
    · split at hok
      · simp at hok
      · exact hok
    · exact hok

/-- A successful commit returns exactly the `commitApply` state. -/
theorem updateStatusCommit_ok_db (db : DB) (eid : Nat) (e : Emergency)
    (s : EStatus) (notes : String) (db' : DB)
    (hok : updateStatusCommit db eid e s notes = (db', .ok ())) :
    db' = commitApply db eid e s notes := by
  unfold updateStatusCommit at hok
  split at hok
  · simp at hok
  · split at hok
    · simp at hok
    · split at hok
      · simp at hok
      · split at hok
        · simp at hok
        · split at hok
          · simp at hok
          · simp only [Prod.mk.injEq] at hok
            exact hok.1.symm

/-- C4: a successful status update to `completed` or `cancelled` on an
emergency with an assigned, existing ambulance leaves that ambulance
`available` with no active emergency; on `completed`, the assigned hospital
additionally has its available capacity incremented by one, capped at its
total. -/
theorem completion_releases_resources (db : DB) (user : User) (eid : Nat)
    (s : EStatus) (notes : String) (db' : DB) (e : Emergency) (aid : Nat)
    (amb : Ambulance)
    (hs : s = .completed ∨ s = .cancelled)
    (he : lookupId db.emergencies eid = some e)
    (hea : e.ambulance = some aid)
    (hamb : lookupId db.ambulances aid = some amb)
    (hok : updateStatusHandler db user eid s notes = (db', .ok ())) :
    (∃ amb', lookupId db'.ambulances aid = some amb' ∧
       amb'.status = .available ∧ amb'.activeEmergency = none) ∧
    (s = .completed → ∀ hid h, e.hospital = some hid →
       lookupId db.hospitals hid = some h →
       ∃ h', lookupId db'.hospitals hid = some h' ∧
         h'.emergencyCapacity.total = h.emergencyCapacity.total ∧
         h'.emergencyCapacity.available =
           min h.emergencyCapacity.total (h.emergencyCapacity.available + 1)) := by
  have hcommit := updateStatusHandler_ok_commit db user eid s notes db' e he hok
  have hdb := updateStatusCommit_ok_db db eid e s notes db' hcommit
  subst hdb
  unfold commitApply
  rw [if_pos hs]
  have hrel : lookupId
      (releaseAmbulance (commitBase db eid e s notes) e.ambulance).ambulances aid =
      some { amb with status := .available, activeEmergency := none } := by
    rw [hea]
    exact releaseAmbulance_lookup _ aid amb (by simpa using hamb)
  constructor
  · split
    · exact ⟨_, by rw [restoreHospitalCap_ambulances]; exact hrel, rfl, rfl⟩
    · exact ⟨_, hrel, rfl, rfl⟩
  · intro hsc hid h hh hl
    subst hsc
    rw [if_pos rfl, hh]
    have hhl : lookupId
        (releaseAmbulance (commitBase db eid e .completed notes) e.ambulance).hospitals hid =
        some h := by
      rw [releaseAmbulance_hospitals]
      simpa using hl
    exact ⟨_, restoreHospitalCap_lookup _ hid h hhl, rfl, rfl⟩

/-- Witness for C4: completing an emergency in `arrived_at_hospital` with a
busy ambulance and a hospital at capacity 2 of 5 releases the ambulance and
restores the capacity to 3. -/
theorem completion_releases_resources_witness :
    (∃ amb', lookupId (updateStatusHandler
        ⟨[(1, ⟨2, 3, .arrived_at_hospital, some 4, some 8, none, [], none⟩)],
         [(4, ⟨"MH-01", .busy, some 7, some 1⟩)],
         [(8, ⟨"General", [], ⟨5, 2⟩, ⟨0, 0⟩⟩)]⟩
        ⟨7, .driver, "drv"⟩ 1 .completed "").1.ambulances 4 = some amb' ∧
       amb'.status = .available ∧ amb'.activeEmergency = none) ∧
    (EStatus.completed = .completed → ∀ hid h,
       (some 8 : Option Nat) = some hid →
       lookupId [(8, (⟨"General", [], ⟨5, 2⟩, ⟨0, 0⟩⟩ : Hospital))] hid = some h →
       ∃ h', lookupId (updateStatusHandler
          ⟨[(1, ⟨2, 3, .arrived_at_hospital, some 4, some 8, none, [], none⟩)],
           [(4, ⟨"MH-01", .busy, some 7, some 1⟩)],
           [(8, ⟨"General", [], ⟨5, 2⟩, ⟨0, 0⟩⟩)]⟩
          ⟨7, .driver, "drv"⟩ 1 .completed "").1.hospitals hid = some h' ∧
         h'.emergencyCapacity.total = h.emergencyCapacity.total ∧
         h'.emergencyCapacity.available =
           min h.emergencyCapacity.total (h.emergencyCapacity.available + 1)) :=
  completion_releases_resources
    ⟨[(1, ⟨2, 3, .arrived_at_hospital, some 4, some 8, none, [], none⟩)],
     [(4, ⟨"MH-01", .busy, some 7, some 1⟩)],
     [(8, ⟨"General", [], ⟨5, 2⟩, ⟨0, 0⟩⟩)]⟩
    ⟨7, .driver, "drv"⟩ 1 .completed "" _
    ⟨2, 3, .arrived_at_hospital, some 4, some 8, none, [], none⟩ 4
    ⟨"MH-01", .busy, some 7, some 1⟩
    (Or.inl rfl) rfl rfl rfl rfl

/-! Claim C10: cancellation releases the ambulance but never touches the
hospitals store, so capacity consumed by an assignment is not restored. -/

/-- C10: a status update to `cancelled` leaves the hospitals store exactly as
it was — whether the call succeeds or fails — while a successful cancellation
of an emergency with an assigned, existing ambulance still releases that
ambulance. In particular the available capacity consumed by an assignment is
never restored by a cancellation. -/
theorem cancel_leaves_hospitals_unchanged (db : DB) (user : User) (eid : Nat)
    (notes : String) :
    ((updateStatusHandler db user eid .cancelled notes).1).hospitals = db.hospitals ∧
    (∀ db' e aid amb,
      lookupId db.emergencies eid = some e →
      e.ambulance = some aid →
      lookupId db.ambulances aid = some amb →
      updateStatusHandler db user eid .cancelled notes = (db', .ok ()) →
      ∃ amb', lookupId db'.ambulances aid = some amb' ∧
        amb'.status = .available ∧ amb'.activeEmergency = none) := by
  constructor
  · unfold updateStatusHandler
    cases hl : lookupId db.emergencies eid with
    | none => rfl
    | some e =>
      dsimp only
      rw [if_pos rfl]
      split
      · rfl
      · split
        · rfl
        · unfold updateStatusCommit
          rw [if_neg (by simp), if_neg (by simp), if_neg (by simp),
            if_neg (by simp), if_neg (by simp)]
          unfold commitApply
          rw [if_pos (Or.inr rfl), if_neg (by simp)]
          simp
  · intro db' e aid amb he hea hamb hok
    have hcommit := updateStatusHandler_ok_commit db user eid .cancelled notes db' e he hok
    have hdb := updateStatusCommit_ok_db db eid e .cancelled notes db' hcommit
    subst hdb
    unfold commitApply
    rw [if_pos (Or.inr rfl), if_neg (by simp), hea]
    exact ⟨_, releaseAmbulance_lookup _ aid amb (by simpa using hamb), rfl, rfl⟩

/-- Witness for C10: cancelling an assigned emergency whose hospital sits at
0 of 5 available beds keeps the hospitals store (and hence the consumed
capacity) unchanged while releasing the busy ambulance. -/
theorem cancel_leaves_hospitals_unchanged_witness :
    ((updateStatusHandler
        ⟨[(1, ⟨2, 3, .assigned, some 4, some 8, none, [], none⟩)],
         [(4, ⟨"MH-01", .busy, some 7, some 1⟩)],
         [(8, ⟨"General", [], ⟨5, 0⟩, ⟨0, 0⟩⟩)]⟩
        ⟨2, .user, "patient"⟩ 1 .cancelled "").1).hospitals =
      [(8, ⟨"General", [], ⟨5, 0⟩, ⟨0, 0⟩⟩)] ∧
    (∃ amb', lookupId ((updateStatusHandler
        ⟨[(1, ⟨2, 3, .assigned, some 4, some 8, none, [], none⟩)],
         [(4, ⟨"MH-01", .busy, some 7, some 1⟩)],
         [(8, ⟨"General", [], ⟨5, 0⟩, ⟨0, 0⟩⟩)]⟩
        ⟨2, .user, "patient"⟩ 1 .cancelled "").1).ambulances 4 = some amb' ∧
       amb'.status = .available ∧ amb'.activeEmergency = none) :=
  ⟨(cancel_leaves_hospitals_unchanged
      ⟨[(1, ⟨2, 3, .assigned, some 4, some 8, none, [], none⟩)],
       [(4, ⟨"MH-01", .busy, some 7, some 1⟩)],
       [(8, ⟨"General", [], ⟨5, 0⟩, ⟨0, 0⟩⟩)]⟩
      ⟨2, .user, "patient"⟩ 1 "").1,
   (cancel_leaves_hospitals_unchanged
      ⟨[(1, ⟨2, 3, .assigned, some 4, some 8, none, [], none⟩)],
       [(4, ⟨"MH-01", .busy, some 7, some 1⟩)],
       [(8, ⟨"General", [], ⟨5, 0⟩, ⟨0, 0⟩⟩)]⟩
      ⟨2, .user, "patient"⟩ 1 "").2 _
     ⟨2, 3, .assigned, some 4, some 8, none, [], none⟩ 4
     ⟨"MH-01", .busy, some 7, some 1⟩ rfl rfl rfl rfl⟩

/-! Claim C6: capacity round trip — assign consumes one unit, completion
restores it. -/

/-- Initial store of the round-trip run: hospital at 1 of 5 beds available,
an available ambulance with driver 7, a pending emergency. -/
def c6db : DB :=
  ⟨[(1, ⟨2, 3, .pending, none, none, none, [], none⟩)],
   [(4, ⟨"MH-01", .available, some 7, none⟩)],
   [(8, ⟨"General", [], ⟨5, 1⟩, ⟨0, 0⟩⟩)]⟩

/-- Admin actor of the round-trip run. -/
def c6adm : User := ⟨9, .admin, "boss"⟩

/-- Driver actor of the round-trip run. -/
def c6drv : User := ⟨7, .driver, "drv"⟩

/-- The store after assigning ambulance 4 and hospital 8 to emergency 1. -/
def c6afterAssign : DB := (assignHandler c6db c6adm 1 (some 4) (some 8) (.error "maps down")).1

/-- The store after the driver reports en_route. -/
def c6s1 : DB := (updateStatusHandler c6afterAssign c6drv 1 .en_route "").1

/-- Then arrived_at_patient. -/
def c6s2 : DB := (updateStatusHandler c6s1 c6drv 1 .arrived_at_patient "").1

/-- Then transporting. -/
def c6s3 : DB := (updateStatusHandler c6s2 c6drv 1 .transporting "").1

/-- Then arrived_at_hospital. -/
def c6s4 : DB := (updateStatusHandler c6s3 c6drv 1 .arrived_at_hospital "").1

/-- Then completed. -/
def c6s5 : DB := (updateStatusHandler c6s4 c6drv 1 .completed "").1

/-- C6: with hospital capacity total 5 / available 1, assigning emergency E to
an available ambulance with a driver and this hospital succeeds and leaves
available = 0; driving E through the table-mandated intermediate transitions
(none of which touch capacity) and then updating to `completed` succeeds and
restores available = 1, the value before the assignment. -/
theorem assign_then_complete_round_trip :
    (assignHandler c6db c6adm 1 (some 4) (some 8) (.error "maps down")).2 = .ok () ∧
    hospAvail c6afterAssign 8 = some 0 ∧
    (updateStatusHandler c6afterAssign c6drv 1 .en_route "").2 = .ok () ∧
    (updateStatusHandler c6s1 c6drv 1 .arrived_at_patient "").2 = .ok () ∧
    (updateStatusHandler c6s2 c6drv 1 .transporting "").2 = .ok () ∧
    (updateStatusHandler c6s3 c6drv 1 .arrived_at_hospital "").2 = .ok () ∧
    hospAvail c6s4 8 = some 0 ∧
    (updateStatusHandler c6s4 c6drv 1 .completed "").2 = .ok () ∧
    hospAvail c6s5 8 = some 1 := by
  exact ⟨rfl, rfl, rfl, rfl, rfl, rfl, rfl, rfl, rfl⟩

/-! Claim C5: the hospital capacity invariant is preserved by any sequence of
assign and status-update operations. -/

/-- Capacity well-formedness of one hospital: `0 ≤ available ≤ total`. -/
def capOk (h : Hospital) : Prop :=
  0 ≤ h.emergencyCapacity.available ∧
  h.emergencyCapacity.available ≤ h.emergencyCapacity.total

instance (h : Hospital) : Decidable (capOk h) := by
  unfold capOk
  infer_instance

/-- Capacity well-formedness of every hospital in the store. -/
def hospitalsOk (db : DB) : Prop := ∀ p ∈ db.hospitals, capOk p.2

instance (db : DB) : Decidable (hospitalsOk db) := by
  unfold hospitalsOk
  infer_instance

/-- An operation of the lifecycle API, as fired by one HTTP request. -/
inductive AdminOp where
  | assignOp (user : User) (eid : Nat) (ambulanceId : Option Nat)
      (hospitalId : Option Nat) (route : Except String Route)
  | statusOp (user : User) (eid : Nat) (s : EStatus) (notes : String)

/-- Run one operation against the store, keeping the resulting state. -/
def runOp (db : DB) : AdminOp → DB
  | .assignOp u eid aid hid r => (assignHandler db u eid aid hid r).1
  | .statusOp u eid s n => (updateStatusHandler db u eid s n).1

/-- Run a sequence of operations left to right. -/
def runOps (db : DB) (ops : List AdminOp) : DB := ops.foldl runOp db

/-- A successful lookup means membership of the pair in the store. -/
theorem lookupId_mem {α : Type} (l : List (Nat × α)) (k : Nat) (v : α)
    (h : lookupId l k = some v) : (k, v) ∈ l := by
  induction l with
  | nil => simp [lookupId] at h
  | cons p rest ih =>
    obtain ⟨k2, w⟩ := p
    by_cases hk : k2 = k
    · subst hk
      simp [lookupId] at h
      simp [h]
    · simp [lookupId, hk] at h
      exact List.mem_cons_of_mem _ (ih h)

/-- The restore-capacity block preserves the capacity invariant. -/
theorem restoreHospitalCap_hospitalsOk (db : DB) (hidOpt : Option Nat)
    (hdb : hospitalsOk db) : hospitalsOk (restoreHospitalCap db hidOpt) := by
  unfold restoreHospitalCap
  split
  · split
    · intro p hp
      dsimp only at hp
      refine setId_forall hdb ?_ p hp
      have hcap : capOk _ := hdb _ (lookupId_mem _ _ _ (by assumption))
      simp only [capOk] at hcap ⊢
      omega
    · exact hdb
  · exact hdb

/-- The release-ambulance block preserves the capacity invariant (it never
touches the hospitals store). -/
theorem releaseAmbulance_hospitalsOk (db : DB) (aidOpt : Option Nat)
    (hdb : hospitalsOk db) : hospitalsOk (releaseAmbulance db aidOpt) := by
  intro p hp
  rw [releaseAmbulance_hospitals] at hp
  exact hdb p hp

/-- The status-route commit tail preserves the capacity invariant. -/
theorem updateStatusCommit_hospitalsOk (db : DB) (eid : Nat) (e : Emergency)
    (s : EStatus) (notes : String) (hdb : hospitalsOk db) :
    hospitalsOk (updateStatusCommit db eid e s notes).1 := by
  have hbase : hospitalsOk (commitBase db eid e s notes) := by
    intro p hp
    rw [commitBase_hospitals] at hp
    exact hdb p hp
  unfold updateStatusCommit
  split
  · exact hdb
  · split
    · exact hdb
    · split
      · exact hdb
      · split
        · exact hdb
        · split
          · exact hdb
          · unfold commitApply
            split
            · split
              · exact restoreHospitalCap_hospitalsOk _ _
                  (releaseAmbulance_hospitalsOk _ _ hbase)
              · exact releaseAmbulance_hospitalsOk _ _ hbase
            · exact hbase

/-- A status-route call preserves the capacity invariant. -/
theorem updateStatus_hospitalsOk (db : DB) (u : User) (eid : Nat) (s : EStatus)
    (n : String) (hdb : hospitalsOk db) :
    hospitalsOk (updateStatusHandler db u eid s n).1 := by
  unfold updateStatusHandler
  split
  · exact hdb
  · split
    · split
      · exact hdb
      · split
        · exact hdb
        · exact updateStatusCommit_hospitalsOk _ _ _ _ _ hdb
    · split
      · split
        · exact hdb
        · exact updateStatusCommit_hospitalsOk _ _ _ _ _ hdb
      · exact updateStatusCommit_hospitalsOk _ _ _ _ _ hdb

/-- The assign commit preserves the capacity invariant, provided the hospital
handed to it satisfies it. -/
theorem assignCommit_hospitalsOk (db : DB) (u : User) (eid : Nat) (e : Emergency)
    (aid : Nat) (amb : Ambulance) (hidOpt : Option Nat) (hosp : Option Hospital)
    (r : Except String Route) (hdb : hospitalsOk db)
    (hcap : ∀ h, hosp = some h → capOk h) :
    hospitalsOk (assignCommit db u eid e aid amb hidOpt hosp r).1 := by
  unfold assignCommit
  dsimp only
  split
  · intro p hp
    dsimp only at hp
    refine setId_forall hdb ?_ p hp
    have hc := hcap _ rfl
    simp only [capOk] at hc ⊢
    omega
  · exact hdb

/-- An assign-route call preserves the capacity invariant. -/
theorem assign_hospitalsOk (db : DB) (u : User) (eid : Nat) (aid : Option Nat)
    (hid : Option Nat) (r : Except String Route) (hdb : hospitalsOk db) :
    hospitalsOk (assignHandler db u eid aid hid r).1 := by
  unfold assignHandler
  split
  · exact hdb
  · split
    · exact hdb
    · dsimp only
      split
      · exact hdb
      · split
        · exact hdb
        · split
          · exact hdb
          · split
            · exact hdb
            · split
              · split
                · exact hdb
                · split
                  · exact hdb
                  · refine assignCommit_hospitalsOk _ _ _ _ _ _ _ _ _ hdb ?_
                    intro h hh
                    cases hh
                    exact hdb _ (lookupId_mem _ _ _ (by assumption))
              · refine assignCommit_hospitalsOk _ _ _ _ _ _ _ _ _ hdb ?_
                intro h hh
                cases hh

/-- C5: if every hospital initially satisfies `0 ≤ available ≤ total`, then
after any finite sequence of assign and status-update operations (the two
operations that touch capacity: assign decrements it floored at 0, completion
increments it capped at the total) every hospital still satisfies it. -/
theorem capacity_invariant_preserved (db : DB) (ops : List AdminOp)
    (hdb : hospitalsOk db) : hospitalsOk (runOps db ops) := by
  induction ops generalizing db with
  | nil => exact hdb
  | cons op rest ih =>
    cases op with
    | assignOp u eid aid hid r =>
      exact ih _ (assign_hospitalsOk db u eid aid hid r hdb)
    | statusOp u eid s n =>
      exact ih _ (updateStatus_hospitalsOk db u eid s n hdb)

/-- Witness for C5: the invariant survives a concrete assign-and-complete
sequence starting from a well-formed store. -/
theorem capacity_invariant_preserved_witness :
    hospitalsOk (runOps
      ⟨[(1, ⟨2, 3, .pending, none, none, none, [], none⟩)],
       [(4, ⟨"MH-01", .available, some 7, none⟩)],
       [(8, ⟨"General", [], ⟨5, 1⟩, ⟨0, 0⟩⟩)]⟩
      [.assignOp ⟨9, .admin, "boss"⟩ 1 (some 4) (some 8) (.error "maps down"),
       .statusOp ⟨9, .admin, "boss"⟩ 1 .cancelled "",
       .assignOp ⟨9, .admin, "boss"⟩ 1 (some 4) (some 8) (.error "maps down")]) :=
  capacity_invariant_preserved
    ⟨[(1, ⟨2, 3, .pending, none, none, none, [], none⟩)],
     [(4, ⟨"MH-01", .available, some 7, none⟩)],
     [(8, ⟨"General", [], ⟨5, 1⟩, ⟨0, 0⟩⟩)]⟩
    [.assignOp ⟨9, .admin, "boss"⟩ 1 (some 4) (some 8) (.error "maps down"),
     .statusOp ⟨9, .admin, "boss"⟩ 1 .cancelled "",
     .assignOp ⟨9, .admin, "boss"⟩ 1 (some 4) (some 8) (.error "maps down")]
    (by decide)

/-! Claim C7: feedback preconditions and the incremental rating average. -/

/-- C7: addFeedback fails — returning the store unchanged — whenever the
emergency is not `completed` or the caller is neither the patient nor the
requester; and a successful call has a rating within 1..5 and folds it into
the associated hospital rating by the incremental-average formula, bumping the
count by one. -/
theorem feedback_requires_completed_and_updates_average (db : DB) (user : User)
    (eid : Nat) (rating : Rat) (comment : Option String) (e : Emergency)
    (he : lookupId db.emergencies eid = some e) :
    ((e.status ≠ .completed ∨ (e.patient ≠ user.id ∧ e.requestedBy ≠ user.id)) →
       (feedbackHandler db user eid rating comment).1 = db ∧
       ∃ err, (feedbackHandler db user eid rating comment).2 = .error err) ∧
    (∀ db', feedbackHandler db user eid rating comment = (db', .ok ()) →
       1 ≤ rating ∧ rating ≤ 5 ∧
       ∀ hid h, e.hospital = some hid → lookupId db.hospitals hid = some h →
         ∃ h', lookupId db'.hospitals hid = some h' ∧
           h'.rating.average =
             (h.rating.average * h.rating.count + rating) / (h.rating.count + 1) ∧
           h'.rating.count = h.rating.count + 1) := by
  unfold feedbackHandler
  constructor
  · intro hbad
    by_cases hr : rating < 1 ∨ rating > 5
    · rw [if_pos hr]
      exact ⟨rfl, _, rfl⟩
    · rw [if_neg hr, he]
      dsimp only
      by_cases hauth : e.patient ≠ user.id ∧ e.requestedBy ≠ user.id
      · rw [if_pos hauth]
        exact ⟨rfl, _, rfl⟩
      · rw [if_neg hauth]
        have hst : e.status ≠ .completed := by tauto
        rw [if_pos hst]
        exact ⟨rfl, _, rfl⟩
  · intro db' hok
    split at hok
    · simp at hok
    · rw [he] at hok
      dsimp only at hok
      split at hok
      · simp at hok
      · split at hok
        · simp at hok
        · have hr : ¬(rating < 1 ∨ rating > 5) := by assumption
          push_neg at hr
          refine ⟨hr.1, hr.2, ?_⟩
          intro hid h hh hl
          rw [hh] at hok
          dsimp only at hok
          rw [show lookupId db.hospitals hid = some h from hl] at hok
      
          dsimp only at hok
          simp only [Prod.mk.injEq] at hok
          obtain ⟨hdb, -⟩ := hok
          subst hdb
          exact ⟨_, lookupId_setId_self _ _ _, rfl, rfl⟩

/-- Store for a concrete feedback run: a completed emergency of patient 2
tied to hospital 8, whose rating is average 4 from 1 review. -/
def c7db : DB :=
  ⟨[(1, ⟨2, 3, .completed, some 4, some 8, none, [], none⟩)],
   [(4, ⟨"MH-01", .available, some 7, none⟩)],
   [(8, ⟨"General", [], ⟨5, 1⟩, ⟨4, 1⟩⟩)]⟩

/-- The patient submitting the feedback. -/
def c7user : User := ⟨2, .user, "patient"⟩

/-- Witness for C7: the patient rates the completed emergency 5, and hospital
8 ends with the incremental average over 2 reviews. -/
theorem feedback_requires_completed_witness :
    (1 : Rat) ≤ 5 ∧ (5 : Rat) ≤ 5 ∧
    ∀ hid h, (some 8 : Option Nat) = some hid →
      lookupId c7db.hospitals hid = some h →
      ∃ h', lookupId ((feedbackHandler c7db c7user 1 5 none).1).hospitals hid = some h' ∧
        h'.rating.average =
          (h.rating.average * h.rating.count + 5) / (h.rating.count + 1) ∧
        h'.rating.count = h.rating.count + 1 :=
  (feedback_requires_completed_and_updates_average c7db c7user 1 5 none
    ⟨2, 3, .completed, some 4, some 8, none, [], none⟩ rfl).2
    (feedbackHandler c7db c7user 1 5 none).1 rfl

/-! Claim C8: the nearby-hospitals merge policy. -/

/-- C8: when the internal store yields at least the requested limit, the
response holds exactly the internal results with no error annotation;
otherwise the response is the internal entries followed by external entries
drawn from the provider whose lowercased names avoid every internal name, the
whole list capped at the limit; and when the provider fails in that branch,
the response still carries the internal results plus the error message. -/
theorem nearby_merge_policy (dbH : List DbHospital) (gs : List GoogleHospital)
    (msg : String) (lim : Nat) :
    (lim ≤ dbH.length →
       nearbyHandler dbH (.ok gs) lim =
         ⟨"database", dbH.length, dbH.map .internal, none⟩) ∧
    (dbH.length < lim →
       ∃ ext, (nearbyHandler dbH (.ok gs) lim).data =
           dbH.map NearbyEntry.internal ++ ext ∧
         (∀ entry ∈ ext, ∃ g ∈ gs, entry = NearbyEntry.external g.name g.vicinity ∧
            ¬ (dbH.map (fun h => h.name.toLower)).contains g.name.toLower = true) ∧
         (nearbyHandler dbH (.ok gs) lim).data.length ≤ lim) ∧
    (dbH.length < lim →
       (nearbyHandler dbH (.error msg) lim).data = dbH.map .internal ∧
       (nearbyHandler dbH (.error msg) lim).error = some msg) := by
  refine ⟨?_, ?_, ?_⟩
  · intro hge
    unfold nearbyHandler
    rw [if_pos hge]
  · intro hlt
    unfold nearbyHandler
    rw [if_neg (by omega)]
    dsimp only
    refine ⟨_, rfl, ?_, ?_⟩
    · intro entry hentry
      have hmem := List.mem_of_mem_take hentry
      rw [List.mem_map] at hmem
      obtain ⟨g, hg, hge⟩ := hmem
      rw [List.mem_filter] at hg
      refine ⟨g, hg.1, hge.symm, ?_⟩
      have := hg.2
      simp only [decide_eq_true_eq] at this
      exact this
    · rw [List.length_append, List.length_map, List.length_take]
      have : min (lim - dbH.length) (((gs.filter
          (fun g => ¬(dbH.map (fun h => h.name.toLower)).contains g.name.toLower = true)).map
          (fun g => NearbyEntry.external g.name g.vicinity)).length) ≤ lim - dbH.length :=
        Nat.min_le_left _ _
      omega
  · intro hlt
    unfold nearbyHandler
    rw [if_neg (by omega)]
    exact ⟨rfl, rfl⟩

/-- Witness for C8: with two internal results and limit 2 the provider result
is ignored; with one internal result, limit 3, and a provider list holding a
case-insensitive duplicate of the internal hospital, the merged output keeps
the internal entry first, drops the duplicate, stays within the limit, and a
provider failure still returns the internal results with the error message. -/
theorem nearby_merge_policy_witness :
    (nearbyHandler [⟨"Alpha"⟩, ⟨"Beta"⟩] (.ok [⟨"Gamma", "g st"⟩]) 2 =
       ⟨"database", 2, [.internal ⟨"Alpha"⟩, .internal ⟨"Beta"⟩], none⟩) ∧
    (∃ ext, (nearbyHandler [⟨"Alpha"⟩] (.ok [⟨"ALPHA", "a st"⟩, ⟨"Gamma", "g st"⟩]) 3).data =
        ([⟨"Alpha"⟩] : List DbHospital).map NearbyEntry.internal ++ ext ∧
      (∀ entry ∈ ext, ∃ g ∈ ([⟨"ALPHA", "a st"⟩, ⟨"Gamma", "g st"⟩] : List GoogleHospital),
         entry = NearbyEntry.external g.name g.vicinity ∧
         ¬ (([⟨"Alpha"⟩] : List DbHospital).map (fun h => h.name.toLower)).contains
             g.name.toLower = true) ∧
      (nearbyHandler [⟨"Alpha"⟩] (.ok [⟨"ALPHA", "a st"⟩, ⟨"Gamma", "g st"⟩]) 3).data.length ≤ 3) ∧
    ((nearbyHandler [⟨"Alpha"⟩] (.error "provider down") 3).data =
       ([⟨"Alpha"⟩] : List DbHospital).map NearbyEntry.internal ∧
     (nearbyHandler [⟨"Alpha"⟩] (.error "provider down") 3).error = some "provider down") :=
  ⟨(nearby_merge_policy [⟨"Alpha"⟩, ⟨"Beta"⟩] [⟨"Gamma", "g st"⟩] "x" 2).1 (by decide),
   (nearby_merge_policy [⟨"Alpha"⟩] [⟨"ALPHA", "a st"⟩, ⟨"Gamma", "g st"⟩] "x" 3).2.1
     (by decide),
   (nearby_merge_policy [⟨"Alpha"⟩] [⟨"ALPHA", "a st"⟩, ⟨"Gamma", "g st"⟩] "provider down" 3).2.2
     (by decide)⟩

/-! Claim C9: refund preconditions and final payment status. -/

/-- C9: an admin refund fails — leaving the payments store unchanged — when
the payment is not `completed` or the amount is outside (0, original amount];
and it succeeds otherwise, writing a refund record for the amount and setting
the payment status to `refunded` exactly when the refund is full (a partial
refund keeps status `completed`). -/
theorem refund_requires_completed_and_bounds (payments : List (Nat × Payment))
    (user : User) (pid : Nat) (amount : Rat) (reason : Option String) (p : Payment)
    (hrole : user.role = .admin)
    (hp : lookupId payments pid = some p) :
    ((p.status ≠ .completed ∨ amount ≤ 0 ∨ p.amount < amount) →
       (refundHandler payments user pid amount reason).1 = payments ∧
       ∃ err, (refundHandler payments user pid amount reason).2 = .error err) ∧
    (p.status = .completed → 0 < amount → amount ≤ p.amount →
       ∃ p', refundHandler payments user pid amount reason =
           (setId payments pid p', .ok ()) ∧
         p'.amount = p.amount ∧
         p'.status = (if amount = p.amount then PayStatus.refunded else .completed) ∧
         ∃ rf, p'.refund = some rf ∧ rf.amount = amount) := by
  unfold refundHandler
  rw [if_neg (by simp [hrole]), hp]
  dsimp only
  constructor
  · intro hbad
    by_cases hst : p.status = .completed
    · rw [if_neg (by simp [hst])]
      have hamt : amount ≤ 0 ∨ amount > p.amount := by tauto
      rw [if_pos hamt]
      exact ⟨rfl, _, rfl⟩
    · rw [if_pos hst]
      exact ⟨rfl, _, rfl⟩
  · intro hst h0 hle
    rw [if_neg (by simp [hst])]
    rw [if_neg (by push_neg; exact ⟨h0, hle⟩)]
    exact ⟨_, rfl, rfl, rfl, _, rfl, rfl⟩

/-- Witness for C9: a full refund of a completed 100-unit payment succeeds and
flips its status to `refunded`. -/
theorem refund_requires_completed_witness :
    ∃ p', refundHandler [(1, ⟨100, .completed, none⟩)] ⟨9, .admin, "boss"⟩ 1 100 none =
        (setId [(1, ⟨100, .completed, none⟩)] 1 p', .ok ()) ∧
      p'.amount = (⟨100, .completed, none⟩ : Payment).amount ∧
      p'.status = (if (100 : Rat) = (⟨100, .completed, none⟩ : Payment).amount
        then PayStatus.refunded else .completed) ∧
      ∃ rf, p'.refund = some rf ∧ rf.amount = 100 :=
  (refund_requires_completed_and_bounds [(1, ⟨100, .completed, none⟩)]
    ⟨9, .admin, "boss"⟩ 1 100 none ⟨100, .completed, none⟩ rfl rfl).2
    rfl (by norm_num) (by norm_num)

end AmbulanceSys
